import Mathlib

/-!
Shallow embedding of the QuizVerse exam-attempt lifecycle (src/app.py).

The four persisted entities (Quiz, Question, Attempt, ProctorLog) and the
User table are modelled as Lean structures; the database session is a
record of lists. Each Flask route handler that the specification's claims
touch is translated into a pure Lean function. A mutating handler takes
the database and the request inputs and returns a pair: the HTTP-level
outcome (Except ApiError on the response payload) and the database after
the request (unchanged whenever the handler rolled back or returned an
error before writing). Timestamps are modelled as integers; request-body
fields that the handler accesses with a possibly-raised KeyError are
Option-valued, with none meaning the field is absent. The startTime
string parse by datetime.fromisoformat and the int() coercion of
durationMinutes in manage_quizzes are stdlib boundary plumbing and enter
the model as the Option-valued outcome of that parse.
-/

namespace QuizVerse

/-- A row of the user table (src/app.py lines 20-24); the password hash is
authentication plumbing outside the modelled core and is omitted. -/
structure User where
  id : Nat
  email : String
  role : String
deriving DecidableEq, Repr

/-- A row of the quiz table (src/app.py lines 32-40). -/
structure Quiz where
  id : Nat
  title : String
  start_time : Int
  duration_minutes : Int
  teacher_id : Nat
deriving DecidableEq, Repr

/-- A row of the question table (src/app.py lines 46-54). -/
structure Question where
  id : Nat
  quiz_id : Nat
  text : String
  option_a : String
  option_b : String
  option_c : String
  option_d : String
  correct_answer : String
deriving DecidableEq, Repr

/-- A row of the attempt table (src/app.py lines 56-66). -/
structure Attempt where
  id : Nat
  quiz_id : Nat
  student_id : Nat
  score : Option Nat
  total_questions : Option Nat
  started_at : Int
  finished_at : Option Int
  finished : Bool
deriving DecidableEq, Repr

/-- A row of the proctor-log table (src/app.py lines 68-76). -/
structure ProctorLog where
  id : Nat
  quiz_id : Nat
  student_id : Nat
  event_type : String
  question_number : Int
  timestamp : Int
deriving DecidableEq, Repr

/-- The persistent state seen through the ORM session: one list per table,
plus a single autoincrement counter supplying fresh primary keys. -/
structure DB where
  users : List User
  quizzes : List Quiz
  questions : List Question
  attempts : List Attempt
  logs : List ProctorLog
  nextId : Nat
deriving DecidableEq, Repr

/-- The error kinds of the specification's taxonomy, as produced by the
handlers' early returns and except blocks. -/
inductive ApiError where
  | authorizationError
  | notFoundError
  | conflictError
  | timingError
  | validationError
deriving DecidableEq, Repr

/-- db.session.get on the Quiz primary key (src/app.py line 165 etc.). -/
def findQuiz (db : DB) (quiz_id : Nat) : Option Quiz :=
  db.quizzes.find? (fun q => q.id == quiz_id)

/-- The student-facing question view built by start_quiz_attempt
(src/app.py lines 366-370): id, text and the four options. The structure
has no correct-answer field at all. -/
structure StudentQuestionView where
  id : Nat
  text : String
  option_a : String
  option_b : String
  option_c : String
  option_d : String
deriving DecidableEq, Repr

def studentQuestionView (q : Question) : StudentQuestionView :=
  { id := q.id, text := q.text, option_a := q.option_a, option_b := q.option_b,
    option_c := q.option_c, option_d := q.option_d }

/-- The teacher-facing question view built by the GET branch of
manage_quiz_details (src/app.py lines 190-195), correctAnswer included. -/
structure TeacherQuestionView where
  id : Nat
  text : String
  option_a : String
  option_b : String
  option_c : String
  option_d : String
  correctAnswer : String
deriving DecidableEq, Repr

def teacherQuestionView (q : Question) : TeacherQuestionView :=
  { id := q.id, text := q.text, option_a := q.option_a, option_b := q.option_b,
    option_c := q.option_c, option_d := q.option_d, correctAnswer := q.correct_answer }

/-- One entry of the results list of the quiz-detail view
(src/app.py lines 198-203). -/
structure ResultView where
  studentEmail : String
  score : Option Nat
  totalQuestions : Option Nat
  finishedAt : Option Int
deriving DecidableEq, Repr

/-- One entry of the proctor-log list of the quiz-detail view
(src/app.py lines 206-211). -/
structure LogView where
  studentEmail : String
  eventType : String
  questionNumber : Int
  timestamp : Int
deriving DecidableEq, Repr

/-- The JSON body of the quiz-detail view (src/app.py lines 213-219). -/
structure QuizDetail where
  id : Nat
  title : String
  questions : List TeacherQuestionView
  results : List ResultView
  proctorLogs : List LogView
deriving DecidableEq, Repr

/-- The a.student.email access in the detail view; the foreign key makes
the row exist in every state the app can reach. -/
def lookupEmail (db : DB) (student_id : Nat) : String :=
  ((db.users.find? (fun u => u.id == student_id)).map User.email).getD ""

/-- The POST branch of manage_quizzes (src/app.py lines 131-148), i.e.
createQuiz. title is none when the body lacks the key; startTime is the
outcome of the datetime.fromisoformat parse (none when unparsable);
durationMinutes is the outcome of the int() coercion (none when not
coercible). Any of the three failing raises inside the try block and
yields the 400 validation response with a rollback. -/
def manage_quizzes_post (db : DB) (user : User) (title : Option String)
    (startTime : Option Int) (durationMinutes : Option Int) :
    Except ApiError Quiz × DB :=
  if user.role ≠ "teacher" then (Except.error ApiError.authorizationError, db)
  else
    match startTime, title, durationMinutes with
    | some st, some t, some d =>
      let new_quiz : Quiz :=
        { id := db.nextId, title := t, start_time := st,
          duration_minutes := d, teacher_id := user.id }
      (Except.ok new_quiz,
       { db with quizzes := db.quizzes ++ [new_quiz], nextId := db.nextId + 1 })
    | _, _, _ => (Except.error ApiError.validationError, db)

/-- The GET branch of manage_quiz_details (src/app.py lines 162-219), i.e.
getQuizDetail; it performs no write, so only the response is returned. -/
def manage_quiz_details_get (db : DB) (quiz_id : Nat) (user : User) :
    Except ApiError QuizDetail :=
  match findQuiz db quiz_id with
  | none => Except.error ApiError.notFoundError
  | some quiz =>
    if user.role = "teacher" ∧ quiz.teacher_id ≠ user.id then
      Except.error ApiError.authorizationError
    else
      Except.ok
        { id := quiz.id
          title := quiz.title
          questions :=
            (db.questions.filter (fun q => q.quiz_id == quiz.id)).map teacherQuestionView
          results :=
            (db.attempts.filter (fun a => a.quiz_id == quiz.id)).map (fun a =>
              { studentEmail := lookupEmail db a.student_id, score := a.score,
                totalQuestions := a.total_questions, finishedAt := a.finished_at })
          proctorLogs :=
            (db.logs.filter (fun l => l.quiz_id == quiz.id)).map (fun l =>
              { studentEmail := lookupEmail db l.student_id, eventType := l.event_type,
                questionNumber := l.question_number, timestamp := l.timestamp }) }

/-- The JSON body accepted by add_question_manual: the three top-level
keys and, inside options, a JSON object modelled as an association list
from option key to option text. -/
structure ManualQuestionPayload where
  text : Option String
  options : Option (List (String × String))
  correctAnswer : Option String
deriving DecidableEq, Repr

/-- add_question_manual (src/app.py lines 221-254). The handler checks
that text, options and correctAnswer are present and that the options
object has the four keys A, B, C, D; it stores the correctAnswer value
verbatim, with no membership check on it. -/
def add_question_manual (db : DB) (quiz_id : Nat) (user : User)
    (data : ManualQuestionPayload) : Except ApiError Question × DB :=
  if user.role ≠ "teacher" then (Except.error ApiError.authorizationError, db)
  else
    match findQuiz db quiz_id with
    | none => (Except.error ApiError.notFoundError, db)
    | some quiz =>
      if quiz.teacher_id ≠ user.id then (Except.error ApiError.notFoundError, db)
      else
        match data.text, data.options, data.correctAnswer with
        | some t, some opts, some ca =>
          match opts.lookup "A", opts.lookup "B", opts.lookup "C", opts.lookup "D" with
          | some a, some b, some c, some d =>
            let new_question : Question :=
              { id := db.nextId, quiz_id := quiz.id, text := t,
                option_a := a, option_b := b, option_c := c, option_d := d,
                correct_answer := ca }
            (Except.ok new_question,
             { db with questions := db.questions ++ [new_question],
                       nextId := db.nextId + 1 })
          | _, _, _, _ => (Except.error ApiError.validationError, db)
        | _, _, _ => (Except.error ApiError.validationError, db)

/-- One row produced by csv.DictReader in add_questions_csv; a field is
none when the column is absent from the header (or the cell is a missing
value, which raises on .upper() just the same). -/
structure CsvRow where
  question_text : Option String
  option_a : Option String
  option_b : Option String
  option_c : Option String
  option_d : Option String
  correct_answer : Option String
deriving DecidableEq, Repr

/-- The .upper() call on the correct_answer cell, modelled as ASCII
uppercasing character by character; the values it is compared against are
the single ASCII letters A, B, C, D, on which Python str.upper agrees. -/
def strUpper (s : String) : String := String.mk (s.data.map Char.toUpper)

/-- A row survives the loop body of add_questions_csv: all six columns
present and the uppercased correct_answer among A, B, C, D. -/
def rowValid (r : CsvRow) : Bool :=
  r.question_text.isSome && r.option_a.isSome && r.option_b.isSome &&
  r.option_c.isSome && r.option_d.isSome &&
  (match r.correct_answer with
   | some ca => (["A", "B", "C", "D"] : List String).contains (strUpper ca)
   | none => false)

/-- The for loop of add_questions_csv (src/app.py lines 280-298): build
the staged Question rows, raising (Except.error) at the first bad row,
which the handler turns into a rollback of everything staged so far. -/
def buildCsvQuestions (quiz_id : Nat) (nid : Nat) :
    List CsvRow → Except ApiError (List Question)
  | [] => Except.ok []
  | r :: rs =>
    match r.question_text, r.option_a, r.option_b, r.option_c, r.option_d,
          r.correct_answer with
    | some t, some a, some b, some c, some d, some ca =>
      let correct_ans := strUpper ca
      if (["A", "B", "C", "D"] : List String).contains correct_ans then
        match buildCsvQuestions quiz_id (nid + 1) rs with
        | Except.ok qs =>
          Except.ok
            ({ id := nid, quiz_id := quiz_id, text := t, option_a := a,
               option_b := b, option_c := c, option_d := d,
               correct_answer := correct_ans } :: qs)
        | Except.error e => Except.error e
      else Except.error ApiError.validationError
    | _, _, _, _, _, _ => Except.error ApiError.validationError

/-- add_questions_csv (src/app.py lines 257-309), i.e. bulkImport, after
the file-presence and .csv-extension plumbing: the commit lands either
every staged row or, on any ValueError inside the loop, none of them. -/
def add_questions_csv (db : DB) (quiz_id : Nat) (user : User)
    (rows : List CsvRow) : Except ApiError Nat × DB :=
  if user.role ≠ "teacher" then (Except.error ApiError.authorizationError, db)
  else
    match findQuiz db quiz_id with
    | none => (Except.error ApiError.notFoundError, db)
    | some quiz =>
      if quiz.teacher_id ≠ user.id then (Except.error ApiError.notFoundError, db)
      else
        match buildCsvQuestions quiz.id db.nextId rows with
        | Except.error e => (Except.error e, db)
        | Except.ok qs =>
          (Except.ok qs.length,
           { db with questions := db.questions ++ qs,
                     nextId := db.nextId + qs.length })

/-- The success payload of start_quiz_attempt (src/app.py lines 372-377). -/
structure StartResponse where
  attemptId : Nat
  quizTitle : String
  duration : Int
  questions : List StudentQuestionView
deriving DecidableEq, Repr

/-- start_quiz_attempt (src/app.py lines 340-380), i.e. startAttempt. The
existence lookup (line 350) matches any Attempt row for the pair, finished
or not; the timing gate (line 354) only compares against start_time. -/
def start_quiz_attempt (db : DB) (quiz_id : Nat) (user : User) (now : Int) :
    Except ApiError StartResponse × DB :=
  if user.role ≠ "student" then (Except.error ApiError.authorizationError, db)
  else
    match findQuiz db quiz_id with
    | none => (Except.error ApiError.notFoundError, db)
    | some quiz =>
      match db.attempts.find? (fun a => a.quiz_id == quiz.id && a.student_id == user.id) with
      | some _ => (Except.error ApiError.conflictError, db)
      | none =>
        if now < quiz.start_time then (Except.error ApiError.timingError, db)
        else
          let new_attempt : Attempt :=
            { id := db.nextId, quiz_id := quiz.id, student_id := user.id,
              score := none, total_questions := none, started_at := now,
              finished_at := none, finished := false }
          let qs := db.questions.filter (fun q => q.quiz_id == quiz.id)
          (Except.ok
            { attemptId := new_attempt.id, quizTitle := quiz.title,
              duration := quiz.duration_minutes,
              questions := qs.map studentQuestionView },
           { db with attempts := db.attempts ++ [new_attempt],
                     nextId := db.nextId + 1 })

/-- The success payload of submit_quiz_attempt (src/app.py lines 412-415). -/
structure SubmitResponse where
  score : Nat
  totalQuestions : Nat
deriving DecidableEq, Repr

/-- The grading loop of submit_quiz_attempt (src/app.py lines 398-404):
the student answers are a JSON object keyed by the decimal string of the
question id; a point is scored when the looked-up answer is truthy (a
non-empty string) and equal to the stored correct_answer. -/
def gradeAnswers (questions : List Question)
    (student_answers : List (String × String)) : Nat :=
  questions.countP (fun q =>
    match student_answers.lookup (toString q.id) with
    | some student_ans => decide (student_ans ≠ "") && (student_ans == q.correct_answer)
    | none => false)

/-- submit_quiz_attempt (src/app.py lines 383-418), i.e. submitAttempt.
answers is none when the body has no answers key; data.get falls back to
the empty mapping. The active-attempt lookup (line 389) filters on
finished=False. On success the four attempt fields are written together
in one commit. -/
def submit_quiz_attempt (db : DB) (quiz_id : Nat) (user : User)
    (answers : Option (List (String × String))) (now : Int) :
    Except ApiError SubmitResponse × DB :=
  if user.role ≠ "student" then (Except.error ApiError.authorizationError, db)
  else
    match db.attempts.find?
        (fun a => a.quiz_id == quiz_id && a.student_id == user.id && !a.finished) with
    | none => (Except.error ApiError.notFoundError, db)
    | some att =>
      let student_answers := answers.getD []
      let qs := db.questions.filter (fun q => q.quiz_id == quiz_id)
      let score := gradeAnswers qs student_answers
      let total := qs.length
      (Except.ok { score := score, totalQuestions := total },
       { db with attempts := db.attempts.map (fun a =>
           if a.id == att.id then
             { a with score := some score, total_questions := some total,
                      finished := true, finished_at := some now }
           else a) })

/-- log_proctor_event (src/app.py lines 420-439), i.e. recordEvent. The
handler reads the eventType and questionNumber body fields inside the try
block, so a missing key is the 400 validation response; nothing consults
the attempt table, and the quiz id is never resolved. -/
def log_proctor_event (db : DB) (quiz_id : Nat) (user : User)
    (eventType : Option String) (questionNumber : Option Int) (now : Int) :
    Except ApiError Unit × DB :=
  if user.role ≠ "student" then (Except.error ApiError.authorizationError, db)
  else
    match eventType, questionNumber with
    | some et, some qn =>
      (Except.ok (),
       { db with
           logs := db.logs ++
             [{ id := db.nextId, quiz_id := quiz_id, student_id := user.id,
                event_type := et, question_number := qn, timestamp := now }],
           nextId := db.nextId + 1 })
    | _, _ => (Except.error ApiError.validationError, db)

/-- At most one Attempt row per (quiz, student) pair, the core invariant
of section 3 of the specification. -/
def AtMostOneAttemptPerPair (db : DB) : Prop :=
  ∀ qid sid : Nat,
    (db.attempts.filter (fun a => a.quiz_id == qid && a.student_id == sid)).length ≤ 1

/-- Replace every stored correct key according to f, leaving every other
column of every table untouched; used to state that student-facing output
does not depend on the stored correct keys. -/
def setCorrectAnswers (f : Question → String) (db : DB) : DB :=
  { db with questions := db.questions.map (fun q => { q with correct_answer := f q }) }

/-! Concrete sample states used to evaluate the handlers on closed inputs. -/

def teacher0 : User := { id := 1, email := "t@example.com", role := "teacher" }

def student0 : User := { id := 2, email := "s@example.com", role := "student" }

def quiz0 : Quiz :=
  { id := 1, title := "Quiz One", start_time := 100, duration_minutes := 30, teacher_id := 1 }

def sampleQuestion (i : Nat) (key : String) : Question :=
  { id := i, quiz_id := 1, text := "Question", option_a := "one", option_b := "two",
    option_c := "three", option_d := "four", correct_answer := key }

/-- One quiz, no questions, no attempts. -/
def dbQuiz : DB :=
  { users := [teacher0, student0], quizzes := [quiz0], questions := [],
    attempts := [], logs := [], nextId := 2 }

/-- One quiz with five questions whose correct keys are A, B, C, D, A, and
an unfinished attempt by student0. -/
def dbFive : DB :=
  { users := [teacher0, student0], quizzes := [quiz0],
    questions := [sampleQuestion 1 "A", sampleQuestion 2 "B", sampleQuestion 3 "C",
                  sampleQuestion 4 "D", sampleQuestion 5 "A"],
    attempts := [{ id := 10, quiz_id := 1, student_id := 2, score := none,
                   total_questions := none, started_at := 100, finished_at := none,
                   finished := false }],
    logs := [], nextId := 11 }

/-- The same state after the attempt has been graded and finished. -/
def dbFinished : DB :=
  { dbFive with
      attempts := [{ id := 10, quiz_id := 1, student_id := 2, score := some 3,
                     total_questions := some 5, started_at := 100,
                     finished_at := some 200, finished := true }] }

def sampleAnswers : List (String × String) :=
  [("1", "A"), ("2", "X"), ("3", "C"), ("5", "A")]

/-- A manual-question body whose correctAnswer is E. -/
def payloadE : ManualQuestionPayload :=
  { text := some "2 plus 2",
    options := some [("A", "1"), ("B", "2"), ("C", "3"), ("D", "4")],
    correctAnswer := some "E" }

def validCsvRow : CsvRow :=
  { question_text := some "Q1", option_a := some "one", option_b := some "two",
    option_c := some "three", option_d := some "four", correct_answer := some "a" }

def invalidCsvRow : CsvRow :=
  { question_text := some "Q2", option_a := some "one", option_b := some "two",
    option_c := some "three", option_d := some "four", correct_answer := some "E" }

/-- A teacher and nothing else persisted. -/
def dbEmpty : DB :=
  { users := [teacher0], quizzes := [], questions := [], attempts := [],
    logs := [], nextId := 1 }

/-- The five-question quiz with no attempts yet. -/
def dbFresh : DB := { dbFive with attempts := [] }

/-! Theorems. -/

/-- C1: startAttempt fails with ConflictError whenever any Attempt row for
the pair already exists, finished or not; it creates exactly one new
unfinished Attempt with start timestamp now when none exists and the
window is open; and it preserves the at-most-one-attempt-per-pair
invariant. -/
theorem C1_start_attempt_exclusive (db : DB) (quiz_id : Nat) (user : User)
    (now : Int) (quiz : Quiz) (hrole : user.role = "student")
    (hq : findQuiz db quiz_id = some quiz) :
    ((∃ a ∈ db.attempts, a.quiz_id = quiz.id ∧ a.student_id = user.id) →
      start_quiz_attempt db quiz_id user now = (Except.error ApiError.conflictError, db)) ∧
    ((∀ a ∈ db.attempts, ¬(a.quiz_id = quiz.id ∧ a.student_id = user.id)) →
      ¬ now < quiz.start_time →
      start_quiz_attempt db quiz_id user now =
        (Except.ok
          { attemptId := db.nextId, quizTitle := quiz.title,
            duration := quiz.duration_minutes,
            questions := (db.questions.filter (fun q => q.quiz_id == quiz.id)).map
              studentQuestionView },
         { db with
             attempts := db.attempts ++
               [{ id := db.nextId, quiz_id := quiz.id, student_id := user.id,
                  score := none, total_questions := none, started_at := now,
                  finished_at := none, finished := false }],
             nextId := db.nextId + 1 })) ∧
    (AtMostOneAttemptPerPair db →
      AtMostOneAttemptPerPair (start_quiz_attempt db quiz_id user now).2) := by
  refine ⟨?_, ?_, ?_⟩
  · rintro ⟨a, ha, h1, h2⟩
    cases hfind : db.attempts.find? (fun a => a.quiz_id == quiz.id && a.student_id == user.id) with
    | none => exact absurd (by simp [h1, h2]) (List.find?_eq_none.mp hfind a ha)
    | some b => simp [start_quiz_attempt, hrole, hq, hfind]
  · intro hnone ht
    have hfind : db.attempts.find?
        (fun a => a.quiz_id == quiz.id && a.student_id == user.id) = none := by
      refine List.find?_eq_none.mpr (fun a ha => ?_)
      simpa using hnone a ha
    simp [start_quiz_attempt, hrole, hq, hfind, ht]
  · intro hinv
    cases hfind : db.attempts.find? (fun a => a.quiz_id == quiz.id && a.student_id == user.id) with
    | some b => simpa [start_quiz_attempt, hrole, hq, hfind] using hinv
    | none =>
      by_cases ht : now < quiz.start_time
      · simpa [start_quiz_attempt, hrole, hq, hfind, ht] using hinv
      · have hsnd : (start_quiz_attempt db quiz_id user now).2 =
            { db with
                attempts := db.attempts ++
                  [{ id := db.nextId, quiz_id := quiz.id, student_id := user.id,
                     score := none, total_questions := none, started_at := now,
                     finished_at := none, finished := false }],
                nextId := db.nextId + 1 } := by
          simp [start_quiz_attempt, hrole, hq, hfind, ht]
        intro qid sid
        rw [hsnd]
        simp only [List.filter_append, List.length_append]
        cases hbb : (quiz.id == qid && user.id == sid) with
        | true =>
          have h1 : quiz.id = qid ∧ user.id = sid := by simpa using hbb
          obtain ⟨rfl, rfl⟩ := h1
          have hfe : db.attempts.filter
              (fun a => a.quiz_id == quiz.id && a.student_id == user.id) = [] :=
            List.filter_eq_nil_iff.mpr (List.find?_eq_none.mp hfind)
          simp [hfe]
        | false =>
          have hone : (List.filter (fun a => a.quiz_id == qid && a.student_id == sid)
              ([{ id := db.nextId, quiz_id := quiz.id, student_id := user.id,
                  score := none, total_questions := none, started_at := now,
                  finished_at := none, finished := false }] : List Attempt)).length = 0 := by
            simp [List.filter, hbb]
          rw [hone]
          simpa using hinv qid sid

/-- C1 witness: in the finished-attempt state, a second start by the same
student is rejected with the conflict error and the state is unchanged. -/
theorem C1_start_attempt_exclusive_witness :
    start_quiz_attempt dbFinished 1 student0 500 =
      (Except.error ApiError.conflictError, dbFinished) :=
  (C1_start_attempt_exclusive dbFinished 1 student0 500 quiz0 rfl rfl).1
    ⟨{ id := 10, quiz_id := 1, student_id := 2, score := some 3, total_questions := some 5,
       started_at := 100, finished_at := some 200, finished := true },
     by simp [dbFinished, dbFive], by simp [quiz0], by simp [student0]⟩

/-- C2: for a student holding an unfinished attempt, submitAttempt returns
score equal to the number of the quiz's current questions whose submitted
answer, looked up by the decimal question id, is present and equal
(case-sensitively) to the stored correct key, and total equal to the
number of the quiz's questions at grading time; unanswered or
wrong-answered questions contribute zero. The stored correct keys are
assumed to satisfy the data model (each one of A, B, C, D). -/
theorem C2_grading_counts_correct_answers (db : DB) (quiz_id : Nat) (user : User)
    (answers : Option (List (String × String))) (now : Int) (att : Attempt)
    (hrole : user.role = "student")
    (hatt : db.attempts.find?
      (fun a => a.quiz_id == quiz_id && a.student_id == user.id && !a.finished) = some att)
    (hkeys : ∀ q ∈ db.questions.filter (fun q => q.quiz_id == quiz_id),
      q.correct_answer ∈ (["A", "B", "C", "D"] : List String)) :
    (submit_quiz_attempt db quiz_id user answers now).1 =
      Except.ok
        { score := (db.questions.filter (fun q => q.quiz_id == quiz_id)).countP
            (fun q => (answers.getD []).lookup (toString q.id) == some q.correct_answer),
          totalQuestions := (db.questions.filter (fun q => q.quiz_id == quiz_id)).length } := by
  have hg : gradeAnswers (db.questions.filter (fun q => q.quiz_id == quiz_id))
      (answers.getD []) =
      (db.questions.filter (fun q => q.quiz_id == quiz_id)).countP
        (fun q => (answers.getD []).lookup (toString q.id) == some q.correct_answer) := by
    refine List.countP_congr (fun q hqmem => ?_)
    have hne : ¬ q.correct_answer = "" := by
      have hk := hkeys q hqmem
      simp only [List.mem_cons, List.not_mem_nil, or_false] at hk
      rcases hk with h | h | h | h <;> simp [h]
    cases hl : (answers.getD []).lookup (toString q.id) with
    | none => simp [hl]
    | some s =>
      simp only [hl, Bool.and_eq_true, decide_eq_true_eq, beq_iff_eq, Option.some.injEq,
        ne_eq]
      constructor
      · rintro ⟨-, h⟩
        exact h
      · rintro rfl
        exact ⟨hne, rfl⟩
  simp [submit_quiz_attempt, hrole, hatt, hg]

/-- C2 witness: with correct keys A, B, C, D, A and the submission mapping
question 1 to A, 2 to X, 3 to C and 5 to A (4 unanswered), the graded
score is 3 out of 5. -/
theorem C2_grading_counts_correct_answers_witness :
    (submit_quiz_attempt dbFive 1 student0 (some sampleAnswers) 300).1 =
      Except.ok { score := 3, totalQuestions := 5 } := by
  have h := C2_grading_counts_correct_answers dbFive 1 student0 (some sampleAnswers) 300
    { id := 10, quiz_id := 1, student_id := 2, score := none, total_questions := none,
      started_at := 100, finished_at := none, finished := false }
    rfl rfl (by decide)
  rw [h]
  rfl

/-- C3: when no unfinished attempt exists for the pair — in particular
after a successful submit has set finished to true — submitAttempt fails
with the not-found error and leaves the database, hence every stored
score, total, finished flag and finish timestamp, unchanged. -/
theorem C3_submit_not_idempotent (db : DB) (quiz_id : Nat) (user : User)
    (answers : Option (List (String × String))) (now : Int)
    (hrole : user.role = "student")
    (hnone : ∀ a ∈ db.attempts, a.quiz_id = quiz_id → a.student_id = user.id →
      a.finished = true) :
    submit_quiz_attempt db quiz_id user answers now =
      (Except.error ApiError.notFoundError, db) := by
  have hfind : db.attempts.find?
      (fun a => a.quiz_id == quiz_id && a.student_id == user.id && !a.finished) = none := by
    refine List.find?_eq_none.mpr (fun a ha => ?_)
    intro hp
    simp only [Bool.and_eq_true, beq_iff_eq, Bool.not_eq_true'] at hp
    obtain ⟨⟨h1, h2⟩, h3⟩ := hp
    have hfin := hnone a ha h1 h2
    simp [hfin] at h3
  simp [submit_quiz_attempt, hrole, hfind]

/-- C3 witness: in the finished-attempt state, a second submit fails with
the not-found error and changes nothing. -/
theorem C3_submit_not_idempotent_witness :
    submit_quiz_attempt dbFinished 1 student0 (some sampleAnswers) 300 =
      (Except.error ApiError.notFoundError, dbFinished) :=
  C3_submit_not_idempotent dbFinished 1 student0 (some sampleAnswers) 300 rfl (by decide)

theorem findQuiz_setCorrectAnswers (f : Question → String) (db : DB) (qid : Nat) :
    findQuiz (setCorrectAnswers f db) qid = findQuiz db qid := rfl

theorem setCorrectAnswers_attempts (f : Question → String) (db : DB) :
    (setCorrectAnswers f db).attempts = db.attempts := rfl

theorem setCorrectAnswers_nextId (f : Question → String) (db : DB) :
    (setCorrectAnswers f db).nextId = db.nextId := rfl

theorem setCorrectAnswers_questions (f : Question → String) (db : DB) :
    (setCorrectAnswers f db).questions =
      db.questions.map (fun q => { q with correct_answer := f q }) := rfl

/-- Rewriting the stored correct keys is invisible to the student-facing
question views: the view reads no correct key, and the filter only reads
the quiz id, which the rewrite preserves. -/
theorem studentViews_ignore_correct (f : Question → String) (l : List Question)
    (qid : Nat) :
    ((l.map (fun q => { q with correct_answer := f q })).filter
        (fun q => q.quiz_id == qid)).map studentQuestionView =
      (l.filter (fun q => q.quiz_id == qid)).map studentQuestionView := by
  induction l with
  | nil => rfl
  | cons q rest ih =>
    by_cases h : (q.quiz_id == qid) = true
    · simp [List.filter_cons, h, studentQuestionView, ih]
    · simp [List.filter_cons, h, ih]

/-- C4: the response of a startAttempt never depends on the stored correct
keys — rewriting every correct key in the database leaves the response,
and in particular its question list, unchanged — while a successful
getQuizDetail maps every question of the quiz through the teacher view,
whose correctAnswer field always equals the stored key. -/
theorem C4_answer_key_confidentiality (db : DB) (quiz_id : Nat) (user : User)
    (now : Int) (f : Question → String) (quiz : Quiz)
    (hq : findQuiz db quiz_id = some quiz)
    (hview : ¬(user.role = "teacher" ∧ quiz.teacher_id ≠ user.id)) :
    (start_quiz_attempt (setCorrectAnswers f db) quiz_id user now).1 =
      (start_quiz_attempt db quiz_id user now).1 ∧
    (∃ d, manage_quiz_details_get db quiz_id user = Except.ok d ∧
      d.questions = (db.questions.filter (fun q => q.quiz_id == quiz.id)).map
        teacherQuestionView) ∧
    (∀ q : Question, (teacherQuestionView q).correctAnswer = q.correct_answer) := by
  refine ⟨?_, ?_, fun q => rfl⟩
  · by_cases hr : user.role = "student"
    · cases hfind : db.attempts.find?
          (fun a => a.quiz_id == quiz.id && a.student_id == user.id) with
      | some b =>
        simp [start_quiz_attempt, findQuiz_setCorrectAnswers, setCorrectAnswers_attempts,
          hr, hq, hfind]
      | none =>
        by_cases ht : now < quiz.start_time
        · simp [start_quiz_attempt, findQuiz_setCorrectAnswers, setCorrectAnswers_attempts,
            hr, hq, hfind, ht]
        · simp [start_quiz_attempt, findQuiz_setCorrectAnswers, setCorrectAnswers_attempts,
            setCorrectAnswers_nextId, setCorrectAnswers_questions, hr, hq, hfind, ht,
            studentViews_ignore_correct]
    · simp [start_quiz_attempt, hr]
  · have hok : manage_quiz_details_get db quiz_id user = Except.ok
        { id := quiz.id, title := quiz.title,
          questions := (db.questions.filter (fun q => q.quiz_id == quiz.id)).map
            teacherQuestionView,
          results := (db.attempts.filter (fun a => a.quiz_id == quiz.id)).map (fun a =>
            { studentEmail := lookupEmail db a.student_id, score := a.score,
              totalQuestions := a.total_questions, finishedAt := a.finished_at }),
          proctorLogs := (db.logs.filter (fun l => l.quiz_id == quiz.id)).map (fun l =>
            { studentEmail := lookupEmail db l.student_id, eventType := l.event_type,
              questionNumber := l.question_number, timestamp := l.timestamp }) } := by
      simp [manage_quiz_details_get, hq, hview]
    exact ⟨_, hok, rfl⟩

/-- C4 witness: on the five-question state, rewriting every correct key to
Z leaves the start response unchanged, and the detail view lists the
questions through the teacher view. -/
theorem C4_answer_key_confidentiality_witness :
    (start_quiz_attempt (setCorrectAnswers (fun _ => "Z") dbFresh) 1 student0 500).1 =
      (start_quiz_attempt dbFresh 1 student0 500).1 ∧
    (∃ d, manage_quiz_details_get dbFresh 1 student0 = Except.ok d ∧
      d.questions = (dbFresh.questions.filter (fun q => q.quiz_id == quiz0.id)).map
        teacherQuestionView) ∧
    (∀ q : Question, (teacherQuestionView q).correctAnswer = q.correct_answer) :=
  C4_answer_key_confidentiality dbFresh 1 student0 500 (fun _ => "Z") quiz0 rfl
    (by decide)

/-- C5: for an existing quiz and a student with no prior attempt,
startAttempt fails with TimingError exactly when now is strictly before
the quiz start time; at or after the start time it succeeds, for every
such now — no upper bound against start time plus duration exists. -/
theorem C5_timing_lower_bound_only (db : DB) (quiz_id : Nat) (user : User)
    (now : Int) (quiz : Quiz) (hrole : user.role = "student")
    (hq : findQuiz db quiz_id = some quiz)
    (hno : ∀ a ∈ db.attempts, ¬(a.quiz_id = quiz.id ∧ a.student_id = user.id)) :
    (now < quiz.start_time →
      start_quiz_attempt db quiz_id user now = (Except.error ApiError.timingError, db)) ∧
    (quiz.start_time ≤ now →
      ∃ resp, (start_quiz_attempt db quiz_id user now).1 = Except.ok resp) := by
  have hfind : db.attempts.find?
      (fun a => a.quiz_id == quiz.id && a.student_id == user.id) = none := by
    refine List.find?_eq_none.mpr (fun a ha => ?_)
    simpa using hno a ha
  constructor
  · intro ht
    simp [start_quiz_attempt, hrole, hq, hfind, ht]
  · intro ht
    have ht2 : ¬ now < quiz.start_time := not_lt.mpr ht
    refine ⟨{ attemptId := db.nextId, quizTitle := quiz.title,
              duration := quiz.duration_minutes,
              questions := (db.questions.filter (fun q => q.quiz_id == quiz.id)).map
                studentQuestionView }, ?_⟩
    simp [start_quiz_attempt, hrole, hq, hfind, ht2]

/-- C5 witness: on the attempt-free state with start time 100, starting at
time 50 is rejected with the timing error, while starting at time 1000000
— far beyond start plus the 30-minute duration — succeeds. -/
theorem C5_timing_lower_bound_only_witness :
    start_quiz_attempt dbFresh 1 student0 50 = (Except.error ApiError.timingError, dbFresh) ∧
    ∃ resp, (start_quiz_attempt dbFresh 1 student0 1000000).1 = Except.ok resp :=
  ⟨(C5_timing_lower_bound_only dbFresh 1 student0 50 quiz0 rfl rfl (by decide)).1
      (by decide),
   (C5_timing_lower_bound_only dbFresh 1 student0 1000000 quiz0 rfl rfl (by decide)).2
      (by decide)⟩

/-- A CSV row is valid exactly when the six columns are present and the
uppercased correct key is among A, B, C, D. -/
theorem rowValid_iff (r : CsvRow) :
    rowValid r = true ↔
      ∃ t a b c d ca, r.question_text = some t ∧ r.option_a = some a ∧
        r.option_b = some b ∧ r.option_c = some c ∧ r.option_d = some d ∧
        r.correct_answer = some ca ∧
        (["A", "B", "C", "D"] : List String).contains (strUpper ca) = true := by
  obtain ⟨t?, a?, b?, c?, d?, ca?⟩ := r
  cases t? <;> cases a? <;> cases b? <;> cases c? <;> cases d? <;> cases ca? <;>
    simp [rowValid]

/-- A row that fails validation aborts the whole staging loop with the
validation error, wherever it sits. -/
theorem buildCsv_head_invalid (qid nid : Nat) (r : CsvRow) (rs : List CsvRow)
    (h : rowValid r = false) :
    buildCsvQuestions qid nid (r :: rs) = Except.error ApiError.validationError := by
  obtain ⟨t?, a?, b?, c?, d?, ca?⟩ := r
  cases t? <;> cases a? <;> cases b? <;> cases c? <;> cases d? <;> cases ca? <;>
    simp_all [rowValid, buildCsvQuestions]

/-- An error in the tail of the staging loop propagates past a valid head
row. -/
theorem buildCsv_cons_tail_error (qid nid : Nat) (r : CsvRow) (rs : List CsvRow)
    (e : ApiError) (hr : rowValid r = true)
    (htail : buildCsvQuestions qid (nid + 1) rs = Except.error e) :
    buildCsvQuestions qid nid (r :: rs) = Except.error e := by
  obtain ⟨t, a, b, c, d, ca, ht, ha, hb, hc, hd, hca, hcontains⟩ := (rowValid_iff r).mp hr
  simp only [buildCsvQuestions, ht, ha, hb, hc, hd, hca, hcontains, if_true, htail]

/-- Any invalid row anywhere in the sequence makes the staging loop fail
with the validation error. -/
theorem buildCsv_error_of_invalid (qid : Nat) (rows : List CsvRow)
    (hbad : ∃ r ∈ rows, rowValid r = false) :
    ∀ nid, buildCsvQuestions qid nid rows = Except.error ApiError.validationError := by
  induction rows with
  | nil => simp at hbad
  | cons r rs ih =>
    intro nid
    obtain ⟨r0, hmem, hr0⟩ := hbad
    rcases List.mem_cons.mp hmem with rfl | hmem2
    · exact buildCsv_head_invalid qid nid r0 rs hr0
    · cases hr : rowValid r with
      | false => exact buildCsv_head_invalid qid nid r rs hr
      | true =>
        exact buildCsv_cons_tail_error qid nid r rs ApiError.validationError hr
          (ih ⟨r0, hmem2, hr0⟩ (nid + 1))

/-- When every row is valid, the staging loop succeeds, producing one
question per row whose stored correct key is the uppercased column
value. -/
theorem buildCsv_ok_of_valid (qid : Nat) (rows : List CsvRow)
    (hgood : ∀ r ∈ rows, rowValid r = true) :
    ∀ nid, ∃ qs, buildCsvQuestions qid nid rows = Except.ok qs ∧
      qs.length = rows.length ∧
      List.Forall₂ (fun (r : CsvRow) (q : Question) => ∀ ca,
        r.correct_answer = some ca → q.correct_answer = strUpper ca) rows qs := by
  induction rows with
  | nil => exact fun nid => ⟨[], rfl, rfl, List.Forall₂.nil⟩
  | cons r rs ih =>
    intro nid
    have hr := hgood r (List.mem_cons_self r rs)
    obtain ⟨t, a, b, c, d, ca, ht, ha, hb, hc, hd, hca, hcontains⟩ := (rowValid_iff r).mp hr
    obtain ⟨qs, hqs, hlen, hfa⟩ :=
      ih (fun x hx => hgood x (List.mem_cons_of_mem r hx)) (nid + 1)
    refine ⟨{ id := nid, quiz_id := qid, text := t, option_a := a, option_b := b,
              option_c := c, option_d := d, correct_answer := strUpper ca } :: qs,
      ?_, ?_, ?_⟩
    · simp only [buildCsvQuestions, ht, ha, hb, hc, hd, hca, hcontains, if_true, hqs]
    · simp [hlen]
    · refine List.Forall₂.cons (fun ca2 hca2 => ?_) hfa
      rw [hca] at hca2
      cases hca2
      rfl

/-- C6: bulkImport is all-or-nothing — any row with a missing column or a
correct key outside A, B, C, D (after uppercasing) fails the whole import
with the validation error and commits zero questions; when every row is
valid, every row is committed with its correct key stored uppercased. -/
theorem C6_bulk_import_all_or_nothing (db : DB) (quiz_id : Nat) (user : User)
    (rows : List CsvRow) (quiz : Quiz) (hrole : user.role = "teacher")
    (hq : findQuiz db quiz_id = some quiz) (hown : quiz.teacher_id = user.id) :
    ((∃ r ∈ rows, rowValid r = false) →
      add_questions_csv db quiz_id user rows = (Except.error ApiError.validationError, db)) ∧
    ((∀ r ∈ rows, rowValid r = true) →
      ∃ qs, add_questions_csv db quiz_id user rows =
          (Except.ok qs.length,
           { db with questions := db.questions ++ qs, nextId := db.nextId + qs.length }) ∧
        qs.length = rows.length ∧
        List.Forall₂ (fun (r : CsvRow) (q : Question) => ∀ ca,
          r.correct_answer = some ca → q.correct_answer = strUpper ca) rows qs) := by
  constructor
  · intro hbad
    have hbuild := buildCsv_error_of_invalid quiz.id rows hbad db.nextId
    simp [add_questions_csv, hrole, hq, hown, hbuild]
  · intro hgood
    obtain ⟨qs, hqs, hlen, hfa⟩ := buildCsv_ok_of_valid quiz.id rows hgood db.nextId
    exact ⟨qs, by simp [add_questions_csv, hrole, hq, hown, hqs], hlen, hfa⟩

/-- C6 witness: a valid first row followed by a row whose correct key is E
makes the import fail with the validation error and leaves the question
bank untouched. -/
theorem C6_bulk_import_all_or_nothing_witness :
    add_questions_csv dbQuiz 1 teacher0 [validCsvRow, invalidCsvRow] =
      (Except.error ApiError.validationError, dbQuiz) :=
  (C6_bulk_import_all_or_nothing dbQuiz 1 teacher0 [validCsvRow, invalidCsvRow] quiz0
      rfl rfl rfl).1
    ⟨invalidCsvRow, by decide, by decide⟩

/-- C7 counterexample: with all four option keys present and a supplied
correctKey of E — outside A, B, C, D — addQuestion does not fail with the
validation error as the claim requires: it succeeds and stores E as the
correct key, which is not one of the four option keys. -/
theorem C7_counterexample :
    (add_question_manual dbQuiz 1 teacher0 payloadE).1 =
      Except.ok { id := 2, quiz_id := 1, text := "2 plus 2", option_a := "1",
                  option_b := "2", option_c := "3", option_d := "4",
                  correct_answer := "E" } ∧
    "E" ∉ (["A", "B", "C", "D"] : List String) :=
  ⟨rfl, by decide⟩

/-- C7 amended: addQuestion fails with ValidationError, adding no
question, whenever text, options or correctAnswer is absent or any of
the four option keys A, B, C, D is missing from options; the supplied
correctKey is never validated, and on success the stored question carries
it verbatim, so the stored correct key need not be among the four option
keys. -/
theorem C7_addQuestion_validation_amended (db : DB) (quiz_id : Nat) (user : User)
    (data : ManualQuestionPayload) (quiz : Quiz) (hrole : user.role = "teacher")
    (hq : findQuiz db quiz_id = some quiz) (hown : quiz.teacher_id = user.id) :
    ((data.text = none ∨ data.options = none ∨ data.correctAnswer = none) →
      add_question_manual db quiz_id user data =
        (Except.error ApiError.validationError, db)) ∧
    (∀ opts, data.options = some opts →
      (opts.lookup "A" = none ∨ opts.lookup "B" = none ∨ opts.lookup "C" = none ∨
        opts.lookup "D" = none) →
      add_question_manual db quiz_id user data =
        (Except.error ApiError.validationError, db)) ∧
    (∀ t opts ca a b c d, data.text = some t → data.options = some opts →
      data.correctAnswer = some ca → opts.lookup "A" = some a →
      opts.lookup "B" = some b → opts.lookup "C" = some c → opts.lookup "D" = some d →
      add_question_manual db quiz_id user data =
        (Except.ok { id := db.nextId, quiz_id := quiz.id, text := t, option_a := a,
                     option_b := b, option_c := c, option_d := d, correct_answer := ca },
         { db with
             questions := db.questions ++
               [{ id := db.nextId, quiz_id := quiz.id, text := t, option_a := a,
                  option_b := b, option_c := c, option_d := d, correct_answer := ca }],
             nextId := db.nextId + 1 })) := by
  refine ⟨?_, ?_, ?_⟩
  · intro hmiss
    cases ht : data.text <;> cases ho : data.options <;> cases hc : data.correctAnswer <;>
      simp_all [add_question_manual, hrole, hq, hown]
  · intro opts ho hmiss
    cases ht : data.text <;> cases hc : data.correctAnswer <;>
      cases hA : opts.lookup "A" <;> cases hB : opts.lookup "B" <;>
      cases hC : opts.lookup "C" <;> cases hD : opts.lookup "D" <;>
      first
      | (simp only [add_question_manual, hrole, hq, hown, ht, hc, ho, hA, hB, hC, hD]
         simp
         done)
      | (exfalso
         rcases hmiss with h | h | h | h <;> simp_all)
  · intro t opts ca a b c d ht ho hc hA hB hC hD
    simp [add_question_manual, hrole, hq, hown, ht, ho, hc, hA, hB, hC, hD]

/-- C7 amended witness: the E-keyed body passes every check the handler
actually performs, and the question lands with correct key E. -/
theorem C7_addQuestion_validation_amended_witness :
    add_question_manual dbQuiz 1 teacher0 payloadE =
      (Except.ok { id := 2, quiz_id := 1, text := "2 plus 2", option_a := "1",
                   option_b := "2", option_c := "3", option_d := "4",
                   correct_answer := "E" },
       { dbQuiz with
           questions := dbQuiz.questions ++
             [{ id := 2, quiz_id := 1, text := "2 plus 2", option_a := "1",
                option_b := "2", option_c := "3", option_d := "4",
                correct_answer := "E" }],
           nextId := 3 }) :=
  (C7_addQuestion_validation_amended dbQuiz 1 teacher0 payloadE quiz0 rfl rfl rfl).2.2
    "2 plus 2" [("A", "1"), ("B", "2"), ("C", "3"), ("D", "4")] "E" "1" "2" "3" "4"
    rfl rfl rfl rfl rfl rfl rfl

/-- C8 counterexample: createQuiz accepts a durationMinutes of minus five
— integer-coercible but non-positive — and persists the quiz, so the
claimed rejection of non-positive durations and the claimed invariant
duration greater than zero do not hold. -/
theorem C8_counterexample :
    manage_quizzes_post dbEmpty teacher0 (some "T") (some 0) (some (-5)) =
      (Except.ok { id := 1, title := "T", start_time := 0, duration_minutes := -5,
                   teacher_id := 1 },
       { users := [teacher0],
         quizzes := [{ id := 1, title := "T", start_time := 0, duration_minutes := -5,
                       teacher_id := 1 }],
         questions := [], attempts := [], logs := [], nextId := 2 }) ∧
    ¬(0 : Int) < -5 :=
  ⟨rfl, by decide⟩

/-- C8 amended: createQuiz fails with ValidationError — persisting no quiz
— exactly when title is absent, startTime is unparsable or
durationMinutes is not integer-coercible; the duration value itself is
never checked, so persisted quizzes may have non-positive durations. -/
theorem C8_createQuiz_validation_amended (db : DB) (user : User)
    (title : Option String) (startTime : Option Int) (durationMinutes : Option Int)
    (hrole : user.role = "teacher") :
    ((title = none ∨ startTime = none ∨ durationMinutes = none) →
      manage_quizzes_post db user title startTime durationMinutes =
        (Except.error ApiError.validationError, db)) ∧
    (∀ t st d, title = some t → startTime = some st → durationMinutes = some d →
      manage_quizzes_post db user title startTime durationMinutes =
        (Except.ok { id := db.nextId, title := t, start_time := st,
                     duration_minutes := d, teacher_id := user.id },
         { db with
             quizzes := db.quizzes ++
               [{ id := db.nextId, title := t, start_time := st,
                  duration_minutes := d, teacher_id := user.id }],
             nextId := db.nextId + 1 })) := by
  constructor
  · intro hmiss
    cases ht : title <;> cases hs : startTime <;> cases hd : durationMinutes <;>
      simp_all [manage_quizzes_post, hrole]
  · intro t st d ht hs hd
    simp [manage_quizzes_post, hrole, ht, hs, hd]

/-- C8 amended witness: a missing title is rejected with the validation
error, while a present title with parsable start time and coercible
duration is persisted. -/
theorem C8_createQuiz_validation_amended_witness :
    manage_quizzes_post dbEmpty teacher0 none (some 0) (some 45) =
      (Except.error ApiError.validationError, dbEmpty) ∧
    manage_quizzes_post dbEmpty teacher0 (some "T") (some 0) (some 45) =
      (Except.ok { id := 1, title := "T", start_time := 0, duration_minutes := 45,
                   teacher_id := 1 },
       { dbEmpty with
           quizzes := dbEmpty.quizzes ++
             [{ id := 1, title := "T", start_time := 0, duration_minutes := 45,
                teacher_id := 1 }],
           nextId := 2 }) :=
  ⟨(C8_createQuiz_validation_amended dbEmpty teacher0 none (some 0) (some 45) rfl).1
      (Or.inl rfl),
   (C8_createQuiz_validation_amended dbEmpty teacher0 (some "T") (some 0) (some 45)
      rfl).2 "T" 0 45 rfl rfl rfl⟩

/-- C9: recordEvent with a well-formed payload appends exactly one
proctor-log entry and succeeds for every database state — nothing in the
handler consults the attempt table (nor even the quiz table), so no
Attempt row is required — and its only failure mode past the role check
is the validation error for a payload missing eventType or
questionNumber. -/
theorem C9_record_event_decoupled (db : DB) (quiz_id : Nat) (user : User)
    (eventType : Option String) (questionNumber : Option Int) (now : Int)
    (hrole : user.role = "student") :
    (∀ et qn, eventType = some et → questionNumber = some qn →
      log_proctor_event db quiz_id user eventType questionNumber now =
        (Except.ok (),
         { db with
             logs := db.logs ++
               [{ id := db.nextId, quiz_id := quiz_id, student_id := user.id,
                  event_type := et, question_number := qn, timestamp := now }],
             nextId := db.nextId + 1 })) ∧
    ((eventType = none ∨ questionNumber = none) →
      log_proctor_event db quiz_id user eventType questionNumber now =
        (Except.error ApiError.validationError, db)) := by
  constructor
  · rintro et qn rfl rfl
    simp [log_proctor_event, hrole]
  · intro hmiss
    cases he : eventType <;> cases hn : questionNumber <;>
      simp_all [log_proctor_event, hrole]

/-- C9 witness: in a state with no Attempt rows at all, and for a quiz id
that does not even exist, a well-formed event is logged successfully. -/
theorem C9_record_event_decoupled_witness :
    dbQuiz.attempts = [] ∧
    log_proctor_event dbQuiz 99 student0 (some "tab-blur") (some 3) 77 =
      (Except.ok (),
       { dbQuiz with
           logs := dbQuiz.logs ++
             [{ id := dbQuiz.nextId, quiz_id := 99, student_id := student0.id,
                event_type := "tab-blur", question_number := 3, timestamp := 77 }],
           nextId := dbQuiz.nextId + 1 }) :=
  ⟨rfl,
   (C9_record_event_decoupled dbQuiz 99 student0 (some "tab-blur") (some 3) 77 rfl).1
     "tab-blur" 3 rfl rfl⟩

/-- A lookup over an association list misses when the key differs from
every stored key. -/
theorem lookup_eq_none_of_forall {β : Type} (l : List (String × β)) (k : String)
    (h : ∀ kv ∈ l, ¬ k = kv.1) : l.lookup k = none := by
  induction l with
  | nil => rfl
  | cons kv rest ih =>
    obtain ⟨k1, v1⟩ := kv
    have h1 : (k == k1) = false := by
      simpa using h (k1, v1) (List.mem_cons_self _ _)
    simp only [List.lookup, h1]
    exact ih (fun x hx => h x (List.mem_cons_of_mem _ hx))

/-- C10: a submit whose answers mapping is absent, empty, or touches only
keys that are not ids of the quiz's questions succeeds with score zero
and total equal to the quiz's current question count, and it finishes the
attempt: the stored row ends with finished true and score zero. -/
theorem C10_empty_submit_scores_zero (db : DB) (quiz_id : Nat) (user : User)
    (answers : Option (List (String × String))) (now : Int) (att : Attempt)
    (hrole : user.role = "student")
    (hatt : db.attempts.find?
      (fun a => a.quiz_id == quiz_id && a.student_id == user.id && !a.finished) = some att)
    (hjunk : ∀ kv ∈ answers.getD [], ∀ q ∈ db.questions, q.quiz_id = quiz_id →
      ¬ toString q.id = kv.1) :
    submit_quiz_attempt db quiz_id user answers now =
      (Except.ok
        { score := 0,
          totalQuestions := (db.questions.filter (fun q => q.quiz_id == quiz_id)).length },
       { db with attempts := db.attempts.map (fun a =>
           if a.id == att.id then
             { a with score := some 0,
                      total_questions := some
                        (db.questions.filter (fun q => q.quiz_id == quiz_id)).length,
                      finished := true, finished_at := some now }
           else a) }) ∧
    ∃ a2 ∈ (submit_quiz_attempt db quiz_id user answers now).2.attempts,
      a2.id = att.id ∧ a2.finished = true ∧ a2.score = some 0 := by
  have hzero : gradeAnswers (db.questions.filter (fun q => q.quiz_id == quiz_id))
      (answers.getD []) = 0 := by
    refine List.countP_eq_zero.mpr (fun q hqmem => ?_)
    obtain ⟨hqdb, hquiz⟩ := List.mem_filter.mp hqmem
    have hq2 : q.quiz_id = quiz_id := by simpa using hquiz
    have hlook : (answers.getD []).lookup (toString q.id) = none :=
      lookup_eq_none_of_forall _ _ (fun kv hkv => hjunk kv hkv q hqdb hq2)
    simp [hlook]
  have hmain : submit_quiz_attempt db quiz_id user answers now =
      (Except.ok
        { score := 0,
          totalQuestions := (db.questions.filter (fun q => q.quiz_id == quiz_id)).length },
       { db with attempts := db.attempts.map (fun a =>
           if a.id == att.id then
             { a with score := some 0,
                      total_questions := some
                        (db.questions.filter (fun q => q.quiz_id == quiz_id)).length,
                      finished := true, finished_at := some now }
           else a) }) := by
    simp [submit_quiz_attempt, hrole, hatt, hzero]
  refine ⟨hmain, ?_⟩
  have hmem : att ∈ db.attempts := List.mem_of_find?_eq_some hatt
  rw [hmain]
  refine ⟨_, List.mem_map_of_mem _ hmem, ?_, ?_, ?_⟩ <;> simp

/-- C10 witness: with an unfinished attempt on the five-question quiz and
an answers mapping whose only key matches no question id, submit returns
score zero out of five and the stored attempt row is finished with score
zero. -/
theorem C10_empty_submit_scores_zero_witness :
    (submit_quiz_attempt dbFive 1 student0 (some [("999", "A")]) 300).1 =
      Except.ok { score := 0, totalQuestions := 5 } ∧
    ∃ a2 ∈ (submit_quiz_attempt dbFive 1 student0 (some [("999", "A")]) 300).2.attempts,
      a2.finished = true ∧ a2.score = some 0 := by
  have h := C10_empty_submit_scores_zero dbFive 1 student0 (some [("999", "A")]) 300
    { id := 10, quiz_id := 1, student_id := 2, score := none, total_questions := none,
      started_at := 100, finished_at := none, finished := false }
    rfl rfl (by decide)
  constructor
  · rw [h.1]
    rfl
  · obtain ⟨a2, hmem, hid, hfin, hsc⟩ := h.2
    exact ⟨a2, hmem, hfin, hsc⟩

end QuizVerse
